import Mathlib

/-!
Verification of the GameForge backend (agent.py, agent__.py, html_agent.py,
main.py) against its natural-language specification.  The Python sources are
shallowly embedded: Python strings become `List Char`, dictionaries become
records of `Option` fields, LLM calls become explicit oracle parameters, the
file system becomes a lookup function, and raised exceptions become `Except`
or `Option` results.
-/

/-! ## Python string primitives -/

/-- The characters removed by the Python method `str.strip()` with no
argument: space, tab, newline, carriage return, vertical tab, form feed. -/
def pyWhitespace : List Char := [' ', '\t', '\n', '\r', '\x0b', '\x0c']

/-- Whether `c` counts as whitespace for `str.strip()`. -/
def isPySpace (c : Char) : Bool := pyWhitespace.contains c

/-- Model of the Python expression `s.strip()`: remove leading and trailing
whitespace. -/
def pstrip (cs : List Char) : List Char :=
  ((cs.dropWhile isPySpace).reverse.dropWhile isPySpace).reverse

/-! ## Model of `json.loads`

A value produced by the standard library call `json.loads`.  The model keeps
the fragment exercised by this repository: null, booleans, integer numbers,
strings with the simple escapes, arrays and objects.  Inputs outside the
fragment (floats, unicode escapes) make the model parser fail, which only ever
weakens hypotheses of the theorems below, never conclusions. -/
inductive PyJson where
  | null
  | bool (b : Bool)
  | num (n : Int)
  | str (s : List Char)
  | arr (elems : List PyJson)
  | obj (fields : List (List Char × PyJson))

/-- Whitespace skipped between JSON tokens (per RFC 8259, as `json.loads`
does): space, tab, newline, carriage return. -/
def jskip (cs : List Char) : List Char :=
  cs.dropWhile (fun c => c == ' ' || c == '\t' || c == '\n' || c == '\r')

/-- Decimal digit test for the JSON number grammar. -/
def jdigit (c : Char) : Bool := '0' ≤ c && c ≤ '9'

/-- Longest digit prefix of the input, with the remainder. -/
def spanDigits : List Char → List Char × List Char
  | [] => ([], [])
  | c :: cs =>
      if jdigit c then
        let (ds, rest) := spanDigits cs
        (c :: ds, rest)
      else ([], c :: cs)

/-- Numeric value of a digit list. -/
def digitsVal (ds : List Char) : Int :=
  (ds.foldl (fun a c => a * 10 + (c.toNat - '0'.toNat)) 0 : Nat)

/-- Translation of a backslash escape inside a JSON string literal. -/
def jescape : Char → Option Char
  | '\"' => some '\"'
  | '\\' => some '\\'
  | '/' => some '/'
  | 'n' => some '\n'
  | 't' => some '\t'
  | 'r' => some '\r'
  | 'b' => some '\x08'
  | 'f' => some '\x0c'
  | _ => none

/-- Body of a JSON string literal, after the opening quote; yields the decoded
characters and the remainder past the closing quote. -/
def jstringBody (acc : List Char) : List Char → Option (List Char × List Char)
  | '\"' :: rest => some (acc.reverse, rest)
  | '\\' :: e :: rest =>
      match jescape e with
      | some c => jstringBody (c :: acc) rest
      | none => none
  | c :: rest => jstringBody (c :: acc) rest
  | [] => none

/-- An integer JSON number: optional minus sign then one or more digits.  A
following fraction dot or exponent letter is rejected (outside the modelled
fragment). -/
def jnumber (cs : List Char) : Option (Int × List Char) :=
  let (neg, cs1) := match cs with
    | '-' :: r => (true, r)
    | _ => (false, cs)
  match spanDigits cs1 with
  | ([], _) => none
  | (ds, rest) =>
      match rest with
      | '.' :: _ => none
      | 'e' :: _ => none
      | 'E' :: _ => none
      | _ => some ((if neg then -1 else 1) * digitsVal ds, rest)

mutual

/-- One JSON value at the head of the input (whitespace already allowed),
fueled for totality. -/
def jvalue (fuel : Nat) (cs : List Char) : Option (PyJson × List Char) :=
  match fuel with
  | 0 => none
  | fuel + 1 =>
      match jskip cs with
      | 'n' :: 'u' :: 'l' :: 'l' :: r => some (.null, r)
      | 't' :: 'r' :: 'u' :: 'e' :: r => some (.bool true, r)
      | 'f' :: 'a' :: 'l' :: 's' :: 'e' :: r => some (.bool false, r)
      | '\"' :: r =>
          match jstringBody [] r with
          | some (s, r1) => some (.str s, r1)
          | none => none
      | '[' :: r =>
          match jskip r with
          | ']' :: r1 => some (.arr [], r1)
          | r1 =>
              match jitems fuel r1 with
              | some (es, r2) => some (.arr es, r2)
              | none => none
      | '{' :: r =>
          match jskip r with
          | '}' :: r1 => some (.obj [], r1)
          | r1 =>
              match jfields fuel r1 with
              | some (ms, r2) => some (.obj ms, r2)
              | none => none
      | r =>
          match jnumber r with
          | some (n, r1) => some (.num n, r1)
          | none => none

/-- One or more comma-separated array elements, through the closing bracket. -/
def jitems (fuel : Nat) (cs : List Char) : Option (List PyJson × List Char) :=
  match fuel with
  | 0 => none
  | fuel + 1 =>
      match jvalue fuel cs with
      | none => none
      | some (v, r) =>
          match jskip r with
          | ',' :: r1 =>
              match jitems fuel r1 with
              | some (vs, r2) => some (v :: vs, r2)
              | none => none
          | ']' :: r1 => some ([v], r1)
          | _ => none

/-- One or more comma-separated object members, through the closing brace. -/
def jfields (fuel : Nat) (cs : List Char) :
    Option (List (List Char × PyJson) × List Char) :=
  match fuel with
  | 0 => none
  | fuel + 1 =>
      match jskip cs with
      | '\"' :: r =>
          match jstringBody [] r with
          | none => none
          | some (k, r1) =>
              match jskip r1 with
              | ':' :: r2 =>
                  match jvalue fuel r2 with
                  | none => none
                  | some (v, r3) =>
                      match jskip r3 with
                      | ',' :: r4 =>
                          match jfields fuel r4 with
                          | some (ms, r5) => some ((k, v) :: ms, r5)
                          | none => none
                      | '}' :: r4 => some ([(k, v)], r4)
                      | _ => none
              | _ => none
      | _ => none

end

/-- Model of `json.loads(s)`: parse one value and require only whitespace
after it; `none` models the raised `JSONDecodeError`. -/
def json_loads (cs : List Char) : Option PyJson :=
  match jvalue (cs.length + 1) cs with
  | some (v, rest) => if jskip rest = [] then some v else none
  | none => none

/-! ## The regex span `({[sS]*})`

`re.search` with the pattern used in the sources matches from the first
opening delimiter to the last closing delimiter anywhere after it; the greedy
middle accepts every character.  `grabSpan o c s` returns that matched span. -/

/-- Span of the input from the first occurrence of `o` through the last
occurrence of `c` after it, as matched by the greedy regex; `none` when the
regex finds no match. -/
def grabSpan (o c : Char) (cs : List Char) : Option (List Char) :=
  let t1 := cs.dropWhile (fun x => x ≠ o)
  match t1 with
  | [] => none
  | _ =>
      let t2 := (t1.reverse.dropWhile (fun x => x ≠ c)).reverse
      match t2 with
      | [] => none
      | [_] => none
      | _ => some t2

namespace AgentPy

/-- Embedding of `safe_json_parse` from agent.py (lines 64 to 91): try the
whole string, then the first-to-last brace span, then the first-to-last
bracket span; `none` models the raised `ValueError`. -/
def safe_json_parse (cs : List Char) : Option PyJson :=
  match json_loads cs with
  | some v => some v
  | none =>
      match (grabSpan '{' '}' cs).bind json_loads with
      | some v => some v
      | none => (grabSpan '[' ']' cs).bind json_loads

end AgentPy

/-! ## Markdown fence stripping

The sources remove code fences with small regex substitutions before parsing
or storing LLM output.  Two families appear: anchored at the ends of the whole
string (agent.py, agent__.py feedback path) and anchored per line with the
MULTILINE flag (agent__.py and html_agent.py json cleanup). -/

/-- Removal of trailing whitespace only. -/
def rstripWs (cs : List Char) : List Char :=
  (cs.reverse.dropWhile isPySpace).reverse

/-- Fixed prefix test on character lists. -/
def hasPrefix (p cs : List Char) : Bool := p.isPrefixOf cs

/-- Fixed suffix test on character lists. -/
def hasSuffix (p cs : List Char) : Bool := p.reverse.isPrefixOf cs.reverse

/-- Model of one substitution of the pattern `caret backtick-fence (tag)?
whitespace-star` without MULTILINE: when the string opens with a fence, the
fence, an optional tag word and following whitespace are removed. -/
def stripLeadFence (tag cs : List Char) : List Char :=
  if hasPrefix ['`', '`', '`'] cs then
    let r := cs.drop 3
    let r := if hasPrefix tag r then r.drop tag.length else r
    r.dropWhile isPySpace
  else cs

/-- Model of one substitution of the pattern `whitespace-star backtick-fence
dollar` without MULTILINE: a closing fence at the end of the string (or just
before one final newline) is removed together with the whitespace before it. -/
def stripTrailFence (cs : List Char) : List Char :=
  if hasSuffix ['`', '`', '`'] cs then
    rstripWs (cs.take (cs.length - 3))
  else if hasSuffix ['`', '`', '`', '\n'] cs then
    rstripWs (cs.take (cs.length - 4)) ++ ['\n']
  else cs

/-- MULTILINE variant of the leading-fence substitution: every line that opens
with a fence loses the fence and an optional tag word. -/
def stripLeadFenceML (tag cs : List Char) : List Char :=
  List.intercalate ['\n'] ((cs.splitOn '\n').map (fun l =>
    if hasPrefix ['`', '`', '`'] l then
      let r := l.drop 3
      if hasPrefix tag r then r.drop tag.length else r
    else l))

/-- MULTILINE variant of the trailing-fence substitution: every line that ends
with a fence loses it. -/
def stripTrailFenceML (cs : List Char) : List Char :=
  List.intercalate ['\n'] ((cs.splitOn '\n').map (fun l =>
    if hasSuffix ['`', '`', '`'] l then l.take (l.length - 3) else l))

namespace AgentV2

/-- Embedding of `safe_json_parse` from agent__.py (lines 65 to 84): strip
json fences per line from the stripped input, restrip, then the same three
parse attempts as agent.py. -/
def safe_json_parse (cs : List Char) : Option PyJson :=
  let s1 := stripLeadFenceML "json".data (pstrip cs)
  let s2 := stripTrailFenceML (pstrip s1)
  match json_loads s2 with
  | some v => some v
  | none =>
      match (grabSpan '{' '}' s2).bind json_loads with
      | some v => some v
      | none => (grabSpan '[' ']' s2).bind json_loads

end AgentV2

namespace HtmlAgent

/-- Embedding of `safe_json_parse` from html_agent.py (lines 87 to 106):
strip bare fences per line, then the three parse attempts. -/
def safe_json_parse (cs : List Char) : Option PyJson :=
  let s1 := stripLeadFenceML [] (pstrip cs)
  let s2 := stripTrailFenceML s1
  match json_loads s2 with
  | some v => some v
  | none =>
      match (grabSpan '{' '}' s2).bind json_loads with
      | some v => some v
      | none => (grabSpan '[' ']' s2).bind json_loads

end HtmlAgent

/-! ## Generation calls and the retry policy (C3)

A backend oracle maps the attempt index (0-based) to the raw response of that
attempt, `none` meaning the attempt raised.  Wall-clock delays between
attempts are not modelled; the delay constant of the sources is recorded. -/

namespace AgentPy

/-- Embedding of `llm_invoke_text` from agent.py (lines 94 to 106): one
`llm.invoke` call, no retry; an exception from the single attempt propagates,
a response is stripped and returned. -/
def llm_invoke_text (backend : Nat → Option (List Char)) : Option (List Char) :=
  (backend 0).map pstrip

end AgentPy

namespace AgentV2

/-- Default value of the `retries` argument of `llm_invoke_text` in
agent__.py and html_agent.py. -/
def RETRIES : Nat := 3

/-- Default value of the `delay` argument (seconds) of `llm_invoke_text` in
agent__.py and html_agent.py; time is otherwise not modelled. -/
def DELAY_SECONDS : Nat := 2

/-- Attempt loop of `llm_invoke_text`: try attempt `attempt`, return its
stripped response on success, otherwise recurse on the next attempt while
attempts remain. -/
def retryLoop (backend : Nat → Option (List Char)) (attempt : Nat) :
    Nat → Option (List Char)
  | 0 => none
  | n + 1 =>
      match backend attempt with
      | some t => some (pstrip t)
      | none => retryLoop backend (attempt + 1) n

/-- Embedding of `llm_invoke_text` from agent__.py (lines 88 to 111): up to
`retries` attempts, first success returned stripped, `none` models the final
`RuntimeError` after exhaustion. -/
def llm_invoke_text (backend : Nat → Option (List Char)) (retries : Nat) :
    Option (List Char) :=
  retryLoop backend 0 retries

end AgentV2

namespace HtmlAgent

/-- Embedding of `llm_invoke_text` from html_agent.py (lines 109 to 146): the
same attempt loop as agent__.py (model routing, temperature and the skipped
final sleep do not affect the returned value). -/
def llm_invoke_text (backend : Nat → Option (List Char)) (retries : Nat) :
    Option (List Char) :=
  AgentV2.retryLoop backend 0 retries

end HtmlAgent

/-! ## Python-level exceptions -/

/-- Exceptions raised by the embedded code paths. -/
inductive PyErr where
  | nameError
  | typeError
  | keyError
  | fileNotFound
  | attributeError
deriving DecidableEq

/-! ## agent.py state and steps (C7, C8) -/

namespace AgentPy

/-- The fields of the agent.py `GameAgentState` TypedDict touched by the
embedded steps; every field is optional, as in a `total=False` TypedDict. -/
structure GameAgentState where
  session_id : Option (List Char)
  user_raw_input : Option (List Char)
  validated : Option Bool
  fix_iteration : Option Nat
  user_feedback : Option (List Char)
  generated_code : Option (List Char)
  final_code : Option (List Char)

/-- Outcome of running a step on a Python dict: the returned state and the
value of the dict object the caller passed in, observed after the call.  The
sources assign into `state` and `return state`, so both components are built
from the same mutated object. -/
structure StepEffect (σ : Type) where
  ret : σ
  callerState : σ

/-- Embedding of `collect_user_idea` from agent.py (lines 157 to 172):
assign a fresh session id when the stored one is missing or empty, default
`user_raw_input`, reset `validated` and the fix counter.  All four writes are
in-place dict assignments followed by `return state`, so the caller-held dict
is the returned one. -/
def collect_user_idea (freshId : List Char) (s : GameAgentState) :
    StepEffect GameAgentState :=
  let s1 := if (s.session_id.getD []) = [] then
      { s with session_id := some freshId } else s
  let s2 := { s1 with user_raw_input := some (s1.user_raw_input.getD []) }
  let s3 := { s2 with validated := some false }
  let s4 := { s3 with fix_iteration := some 0 }
  ⟨s4, s4⟩

/-- Python `a or b` on the two code fields: `state.get("final_code") or
state.get("generated_code", "")`. -/
def currentCode (s : GameAgentState) : List Char :=
  match s.final_code with
  | some c => if c = [] then s.generated_code.getD [] else c
  | none => s.generated_code.getD []

/-- Embedding of `apply_feedback_to_code` from agent.py (lines 1134 to 1183).
`out1` and `out2` are the responses of the first and (possible) second
generation call; the result carries the number of generation calls that were
issued.  The source defines `stronger_prompt` inside the `if` block but calls
`llm_invoke_text(stronger_prompt)` at function level, so on the branch where
the first output differs from the current code the name is unbound and the
step raises `NameError`. -/
def apply_feedback_to_code (out1 out2 : List Char) (s : GameAgentState) :
    Except PyErr (GameAgentState × Nat) :=
  let feedback := s.user_feedback.getD []
  let code := currentCode s
  if feedback = [] then .ok (s, 0)
  else
    let fixed1 := stripTrailFence (stripLeadFence "html".data (pstrip out1))
    if pstrip fixed1 = pstrip code then
      let fixed2 := stripTrailFence (stripLeadFence "html".data (pstrip out2))
      .ok ({ s with final_code := some fixed2 }, 2)
    else
      .error .nameError

end AgentPy

/-! ## agent__.py state, steps and engine fragment (C1, C4, C8) -/

namespace AgentV2

/-- The fields of the agent__.py `GameAgentState` TypedDict touched by the
embedded steps. -/
structure GameAgentState where
  session_id : Option (List Char)
  user_raw_input : Option (List Char)
  chosen_template : Option PyJson
  base_template_code : Option String
  generated_code : Option (List Char)
  review_notes : Option PyJson
  final_code : Option (List Char)
  final_response_html : Option (List Char)
  fix_iteration : Option Nat
  user_feedback : Option (List Char)

/-- Ceiling constant `MAX_FIX_ITERATIONS` of agent__.py (line 22). -/
def MAX_FIX_ITERATIONS : Nat := 2

/-- The fallback review verdict stored when the reviewer response does not
parse (agent__.py lines 392 to 398). -/
def reviewFallback (out : List Char) : PyJson :=
  .obj [("status".data, .str "fail".data),
        ("issues".data, .arr [.str "Could not parse reviewer output.".data,
                              .str "Review response malformed.".data]),
        ("suggestions".data, .str (out.take 800))]

/-- The verdict `review_code` stores for a raw reviewer response: the parsed
value, or the fail fallback when parsing fails. -/
def reviewVerdict (out : List Char) : PyJson :=
  match safe_json_parse out with
  | some r => r
  | none => reviewFallback out

/-- Embedding of `review_code` from agent__.py (lines 314 to 402), given the
raw reviewer response `out`: store the parsed verdict, or the fail fallback
when parsing fails. -/
def review_code (out : List Char) (s : GameAgentState) : GameAgentState :=
  { s with review_notes := some (reviewVerdict out) }

/-- The status string the branch functions read: `(review_notes or {})
.get("status", "fail")`, then compared with a string.  On a non-dict value
`.get` raises `AttributeError`. -/
def reviewStatus (rn : Option PyJson) : Except PyErr (Option PyJson) :=
  match rn with
  | none => .ok none
  | some (.obj kvs) => .ok (kvs.lookup "status".data)
  | some _ => .error .attributeError

/-- Whether the stored status selects the fail path: missing defaults to the
string fail, a non-string stored status compares unequal to any string. -/
def saysFail (v : Option PyJson) : Bool :=
  match v with
  | none => true
  | some (.str s) => s = "fail".data
  | some _ => false

/-- Whether the stored status equals the string pass. -/
def saysPass (v : Option PyJson) : Bool :=
  match v with
  | some (.str s) => s = "pass".data
  | _ => false

/-- Embedding of `review_branch` from agent__.py (lines 742 to 749). -/
def review_branch (s : GameAgentState) : Except PyErr String :=
  match reviewStatus s.review_notes with
  | .error e => .error e
  | .ok v => .ok (if saysFail v then "fix_game_code" else "finalize_output")

/-- Embedding of `fix_game_code` from agent__.py (lines 406 to 538), given
the raw fixer response `out`: increment the counter, and either adopt the
generated code on a pass verdict or store the stripped fixer output in both
code fields. -/
def fix_game_code (out : List Char) (s : GameAgentState) :
    Except PyErr GameAgentState :=
  let s1 := { s with fix_iteration := some (s.fix_iteration.getD 0 + 1) }
  match reviewStatus s.review_notes with
  | .error e => .error e
  | .ok v =>
      if saysPass v then
        .ok { s1 with final_code := some (s1.generated_code.getD []) }
      else
        let fixed := stripTrailFence (stripLeadFence "html".data (pstrip out))
        .ok { s1 with final_code := some fixed, generated_code := some fixed }

/-- Embedding of `fix_branch` from agent__.py (lines 754 to 761): loop back
to review until the counter strictly exceeds the ceiling. -/
def fix_branch (s : GameAgentState) : String :=
  if s.fix_iteration.getD 0 > MAX_FIX_ITERATIONS then "finalize_output"
  else "review_code"

/-- Embedding of `finalize_output` from agent__.py (lines 541 to 573): the
final html is `final_code or generated_code or ""`. -/
def finalize_output (s : GameAgentState) : GameAgentState :=
  let finalHtml :=
    match s.final_code with
    | some c => if c = [] then s.generated_code.getD [] else c
    | none => s.generated_code.getD []
  { s with final_response_html := some finalHtml }

/-- The nodes of the review and fix fragment of the agent__.py graph. -/
inductive FixNode where
  | review_code
  | fix_game_code
  | finalize_output

/-- Result of driving the engine over the fragment. -/
inductive RunResult where
  | done (s : GameAgentState) (loopbacks : Nat)
  | fuelOut
  | err (e : PyErr)

/-- The engine walk over the review and fix fragment: execute the current
node, then follow `review_branch` or `fix_branch`; `rev k` and `fixo k` are
the raw responses of the k-th reviewer and fixer call, and `loopbacks` counts
traversals of the loop-back edge from `fix_game_code` to `review_code`. -/
def engineRun (rev fixo : Nat → List Char) :
    Nat → FixNode → GameAgentState → Nat → Nat → Nat → RunResult
  | 0, _, _, _, _, _ => .fuelOut
  | fuel + 1, .review_code, s, lb, ri, fi =>
      let s1 := review_code (rev ri) s
      match review_branch s1 with
      | .error e => .err e
      | .ok nxt =>
          if nxt = "fix_game_code" then
            engineRun rev fixo fuel .fix_game_code s1 lb (ri + 1) fi
          else
            engineRun rev fixo fuel .finalize_output s1 lb (ri + 1) fi
  | fuel + 1, .fix_game_code, s, lb, ri, fi =>
      match fix_game_code (fixo fi) s with
      | .error e => .err e
      | .ok s1 =>
          if fix_branch s1 = "review_code" then
            engineRun rev fixo fuel .review_code s1 (lb + 1) ri (fi + 1)
          else
            engineRun rev fixo fuel .finalize_output s1 lb ri (fi + 1)
  | _ + 1, .finalize_output, s, lb, _, _ => .done (finalize_output s) lb

end AgentV2

namespace AgentV2

/-- The template names offered to the classifier in agent__.py (line 191). -/
def advertisedTemplates : List String :=
  ["ArenaShooter", "Platformer", "Runner", "Fighting", "Puzzle", "Racing",
   "Maze", "SpaceShooter", "Survival", "Breakout", "Sports", "Idle",
   "Camping", "Dressup", "BoardGame"]

/-- Embedding of `identify_game_template` from agent__.py (lines 182 to 213),
given the raw classifier response `out`: store the `chosen_template` member
of the parsed object; any parse failure, missing key or non-object value is
caught by the bare `except` and replaced by the fallback string sports. -/
def identify_game_template (out : List Char) (s : GameAgentState) :
    GameAgentState :=
  match safe_json_parse out with
  | some (.obj kvs) =>
      match kvs.lookup "chosen_template".data with
      | some v => { s with chosen_template := some v }
      | none => { s with chosen_template := some (.str "sports".data) }
  | _ => { s with chosen_template := some (.str "sports".data) }

/-- Embedding of `load_template_from_library` from agent__.py (lines 217 to
226): build the path `library/<name>.html`, raise `FileNotFoundError` when
the file system does not have it, otherwise store the contents.  A missing
`chosen_template` key raises `KeyError`; a non-string value (which Python
would format into the path) cannot name an existing file in any modelled file
system and is mapped to the not-found error. -/
def load_template_from_library (fs : String → Option String)
    (s : GameAgentState) : Except PyErr GameAgentState :=
  match s.chosen_template with
  | none => .error .keyError
  | some (.str n) =>
      let path := "library/" ++ String.mk n ++ ".html"
      match fs path with
      | some content => .ok { s with base_template_code := some content }
      | none => .error .fileNotFound
  | some _ => .error .fileNotFound

/-- The file system holding exactly the library files named after the
advertised template names: the environment the classifier prompt assumes. -/
def advertisedFs : String → Option String := fun p =>
  if advertisedTemplates.any (fun n => p = "library/" ++ n ++ ".html") then
    some ("<contents of " ++ p ++ ">")
  else none

end AgentV2

/-! ## html_agent.py state and steps (C4, C9, C10) -/

namespace HtmlAgent

/-- The fields of the html_agent.py `GameAgentState` TypedDict touched by the
embedded steps. -/
structure GameAgentState where
  session_id : Option (List Char)
  user_raw_input : Option (List Char)
  chosen_template : Option String
  base_template_code : Option String
  generated_code : Option String
  review_notes : Option PyJson
  final_code : Option String
  final_response_html : Option String
  fix_iteration : Option Nat
  early_completion : Option Bool

/-- Ceiling constant `MAX_FIX_ITERATIONS` of html_agent.py (line 20). -/
def MAX_FIX_ITERATIONS : Nat := 2

/-- The template table `VANILLA_TEMPLATES` of html_agent.py (lines 35 to
45). -/
def VANILLA_TEMPLATES : List (String × String) :=
  [("space_shooter", "library/SpaceShooter.html"),
   ("arena_shooter", "library/ArenaShooter.html"),
   ("platformer", "library/Platformer.html"),
   ("racing", "library/Racing.html"),
   ("fighting", "library/Fighting.html"),
   ("camping", "library/Camping.html"),
   ("sports", "library/Football.html"),
   ("Puzzle", "library/Puzzle.html"),
   ("Maze", "library/Maze.html")]

/-- The inline fallback page of `load_template_from_library` (html_agent.py
lines 312 to 345); its exact markup is irrelevant to every theorem below, so
the constant abbreviates it. -/
def DEFAULT_INLINE_TEMPLATE : String :=
  "<!DOCTYPE html> inline fallback canvas page"

/-- Embedding of `identify_game_template` from html_agent.py (lines 235 to
278), given the raw classifier response: take the `template` member when it
is a string, default the member to platformer, replace a choice outside the
table by the first table key, and fall back to platformer when anything in
the `try` block raises. -/
def identify_game_template (out : List Char) (s : GameAgentState) :
    GameAgentState :=
  match safe_json_parse out with
  | some (.obj kvs) =>
      let chosen : String :=
        match kvs.lookup "template".data with
        | some (.str t) =>
            if VANILLA_TEMPLATES.any (fun kv => kv.1 = String.mk t) then
              String.mk t
            else "space_shooter"
        | some _ => "space_shooter"
        | none => "platformer"
      { s with chosen_template := some chosen }
  | _ => { s with chosen_template := some "platformer" }

/-- Python substring containment `needle in hay` on strings. -/
def containsSub (needle : List Char) : List Char → Bool
  | [] => needle.isEmpty
  | c :: cs => needle.isPrefixOf (c :: cs) || containsSub needle cs

/-- One special-input branch of `load_template_from_library`: look the fixed
key up in the table, open that path and store its contents as the final code
with the early-completion flag; `open(None)` raises `TypeError`, a missing
file raises `FileNotFoundError`. -/
def loadVerbatim (fs : String → Option String) (key : String)
    (s : GameAgentState) : Except PyErr GameAgentState :=
  match VANILLA_TEMPLATES.lookup key with
  | none => .error .typeError
  | some path =>
      match fs path with
      | none => .error .fileNotFound
      | some content =>
          .ok { s with final_code := some content, early_completion := some true }

/-- Embedding of `load_template_from_library` from html_agent.py (lines 281
to 351): a missing `user_raw_input` makes the substring test raise
`TypeError`; the three special substrings load a fixed library file verbatim
into `final_code` and set `early_completion` (the third one looks up the key
maze, which the table spells Maze); otherwise the chosen template path is
read, with the inline page as fallback when the path or file is absent. -/
def load_template_from_library (fs : String → Option String)
    (s : GameAgentState) : Except PyErr GameAgentState :=
  match s.user_raw_input with
  | none => .error .typeError
  | some u =>
      if containsSub "match 3".data u then loadVerbatim fs "Puzzle" s
      else if containsSub "mario".data u then loadVerbatim fs "platformer" s
      else if containsSub "pac man".data u then loadVerbatim fs "maze" s
      else
        let name := s.chosen_template.getD "platformer"
        let base :=
          match VANILLA_TEMPLATES.lookup name with
          | none => DEFAULT_INLINE_TEMPLATE
          | some path =>
              match fs path with
              | none => DEFAULT_INLINE_TEMPLATE
              | some content => content
        .ok { s with base_template_code := some base }

/-- Embedding of `should_skip_customization` from html_agent.py (lines 353
to 358); the thirty-second sleep on the early path has no modelled effect. -/
def should_skip_customization (s : GameAgentState) : String :=
  if s.early_completion.getD false then "finalize_output"
  else "suggest_visual_feature_changes"

/-- The verdict stored by `review_code` when the reviewer response does not
parse (html_agent.py line 527): a passing review with no issues. -/
def reviewPassFallback : PyJson :=
  .obj [("status".data, .str "pass".data),
        ("issues".data, .arr []),
        ("suggestions".data, .str [])]

/-- Embedding of `review_code` from html_agent.py (lines 482 to 529), given
the raw reviewer response: store the parsed verdict, or the pass fallback
when parsing fails. -/
def review_code (out : List Char) (s : GameAgentState) : GameAgentState :=
  match safe_json_parse out with
  | some r => { s with review_notes := some r }
  | none => { s with review_notes := some reviewPassFallback }

/-- Embedding of `review_branch` from html_agent.py (lines 711 to 716); the
status read and comparison follow the same dict access as agent__.py. -/
def review_branch (s : GameAgentState) : Except PyErr String :=
  match s.review_notes with
  | none => .ok "fix_game_code"
  | some (.obj kvs) =>
      .ok (if AgentV2.saysFail (kvs.lookup "status".data) then "fix_game_code"
           else "finalize_output")
  | some _ => .error .attributeError

/-- Embedding of `finalize_output` from html_agent.py (lines 582 to 604):
the final html is `final_code or generated_code or ""`. -/
def finalize_output (s : GameAgentState) : GameAgentState :=
  let finalHtml :=
    match s.final_code with
    | some c => if c = "" then s.generated_code.getD "" else c
    | none => s.generated_code.getD ""
  { s with final_response_html := some finalHtml }

end HtmlAgent

/-! ## The agent__.py workflow graph (C5)

Nodes and edges exactly as declared in agent__.py lines 711 to 792; for a
conditional edge the successor list is the set of node names its branch
function can return.  The terminal marker END is written `__end__`. -/

namespace AgentV2

/-- The nodes added to the `StateGraph` by agent__.py (lines 715 to 727). -/
def workflowNodes : List String :=
  ["collect_user_idea", "generate_questions", "collect_user_answers",
   "identify_game_template", "load_template_from_library",
   "suggest_visual_feature_changes", "apply_changes_to_template",
   "review_code", "fix_game_code", "finalize_output",
   "collect_user_feedback", "apply_feedback_to_code",
   "verify_feedback_applied"]

/-- The entry point set by agent__.py (line 730). -/
def entryPoint : String := "collect_user_idea"

/-- The successor table: unconditional edges as added (lines 733 to 739, 764
to 766) and, for each conditional edge (lines 752, 763, 789), the names its
branch function can return. -/
def workflowEdges : List (String × List String) :=
  [("collect_user_idea", ["generate_questions"]),
   ("generate_questions", ["collect_user_answers"]),
   ("collect_user_answers", ["identify_game_template"]),
   ("identify_game_template", ["load_template_from_library"]),
   ("load_template_from_library", ["suggest_visual_feature_changes"]),
   ("suggest_visual_feature_changes", ["apply_changes_to_template"]),
   ("apply_changes_to_template", ["review_code"]),
   ("review_code", ["fix_game_code", "finalize_output"]),
   ("fix_game_code", ["finalize_output", "review_code"]),
   ("finalize_output", ["__end__"]),
   ("collect_user_feedback", ["apply_feedback_to_code"]),
   ("apply_feedback_to_code", ["verify_feedback_applied"]),
   ("verify_feedback_applied", ["__end__"])]

/-- Successors of a node in the workflow graph. -/
def successors (n : String) : List String :=
  (workflowEdges.lookup n).getD []

/-- One breadth step of the reachability closure: add every successor of the
accumulated set. -/
def reachExpand (acc : List String) : List String :=
  acc ++ ((acc.flatMap successors).filter (fun x => ¬ acc.contains x)).dedup

/-- Nodes reachable from the entry point in at most `fuel` steps. -/
def reachFrom : Nat → List String
  | 0 => [entryPoint]
  | n + 1 => reachExpand (reachFrom n)

/-- Whether a node is reachable from the entry point; the graph has thirteen
nodes, so thirteen expansion rounds saturate the closure. -/
def reachable (n : String) : Bool := (reachFrom 13).contains n

end AgentV2

/-! ## main.py endpoints (C6)

The FastAPI handlers over the in-memory stores.  The LangGraph engine behind
`ainvoke` is an external collaborator, abstracted as an oracle from the
session identifier and reply to either a result state (with or without a
pending interrupt) or a raised exception; the feedback pipeline body (apply,
review, fix loop, finalize) is likewise abstracted. -/

namespace MainPy

/-- The two module-level stores of main.py (lines 38 to 39). -/
structure Stores where
  game_sessions : List (String × AgentV2.GameAgentState)
  final_html_store : List (String × String)

/-- Update-or-insert into an association list keyed by session identifier. -/
def assocSet {β : Type} (k : String) (v : β) :
    List (String × β) → List (String × β)
  | [] => [(k, v)]
  | (k1, v1) :: rest =>
      if k1 = k then (k, v) :: rest else (k1, v1) :: assocSet k v rest

/-- What `game_agent_app.ainvoke` yields for a resume call: a result state
whose `__interrupt__` key may be present, or a raised exception message. -/
inductive EngineResult where
  | value (st : AgentV2.GameAgentState) (hasInterrupt : Bool)
  | raised (msg : String)

/-- A response returned to the HTTP caller: the interrupt payload shape, the
success shape, or an `HTTPException` with its status code and detail. -/
inductive ApiResponse where
  | interrupted (session_id : String)
  | success (session_id : String) (html : String)
  | httpError (statusCode : Nat) (detail : String)

/-- The HTTP status code of a response, `none` for the non-error shapes. -/
def ApiResponse.errorCode : ApiResponse → Option Nat
  | .httpError c _ => some c
  | _ => none

/-- Embedding of `resume_game` from main.py (lines 120 to 157): invoke the
engine on the thread of the supplied session identifier — with no check of
its own that the session exists or that a pending request is outstanding —
then store the result; any exception becomes a generic 500 `HTTPException`
whose detail is the stringified error, with the stores untouched. -/
def resume_game (engine : String → List String → EngineResult) (st : Stores)
    (session_id : String) (answers : List String) : ApiResponse × Stores :=
  match engine session_id answers with
  | .raised m => (.httpError 500 m, st)
  | .value r hasInt =>
      if hasInt then (.interrupted session_id, st)
      else
        let html := String.mk (r.final_response_html.getD [])
        let st1 :=
          if html = "" then st
          else { st with
                 final_html_store := assocSet session_id html st.final_html_store }
        let st2 := { st1 with
                     game_sessions := assocSet session_id r st1.game_sessions }
        (.success session_id html, st2)

/-- Whether a stored session carries game code in any of the three fields the
endpoint checks (`generated_code`, `final_code`, `final_response.html`), each
under Python truthiness. -/
def hasCode (prev : AgentV2.GameAgentState) : Bool :=
  (match prev.generated_code with | some c => ¬ c.isEmpty | none => false) ||
  (match prev.final_code with | some c => ¬ c.isEmpty | none => false) ||
  (match prev.final_response_html with | some c => ¬ c.isEmpty | none => false)

/-- The backfill of `generated_code` from `final_code` or the final response
html performed by the endpoint before running the pipeline. -/
def backfillCode (prev : AgentV2.GameAgentState) : AgentV2.GameAgentState :=
  match prev.generated_code with
  | some c =>
      if c.isEmpty then
        match prev.final_code with
        | some f =>
            if f.isEmpty then
              { prev with generated_code := prev.final_response_html }
            else { prev with generated_code := some f }
        | none => { prev with generated_code := prev.final_response_html }
      else prev
  | none =>
      match prev.final_code with
      | some f =>
          if f.isEmpty then
            { prev with generated_code := prev.final_response_html }
          else { prev with generated_code := some f }
      | none => { prev with generated_code := prev.final_response_html }

/-- Embedding of `feedback_endpoint` from main.py (lines 163 to 373): an
unknown session identifier raises a 404 `HTTPException` before anything is
touched; a session with no game code in any field raises a 400; otherwise the
stored state is updated with the feedback fields and run through the
apply/review/fix/finalize pipeline (abstracted as `pipeline`), a raised
pipeline exception becoming a generic 500 with the stores untouched, and
success rewriting the stored session. -/
def feedback_endpoint (pipeline : AgentV2.GameAgentState →
      Except String AgentV2.GameAgentState) (st : Stores)
    (session_id : String) (feedback : List Char) : ApiResponse × Stores :=
  match st.game_sessions.lookup session_id with
  | none =>
      (.httpError 404 ("Session ID " ++ session_id ++
        " not found in GAME_SESSIONS"), st)
  | some prev =>
      if ¬ hasCode prev then
        (.httpError 400 "No game code found in session state", st)
      else
        let prev1 := backfillCode prev
        let s0 := { prev1 with user_feedback := some feedback,
                               fix_iteration := some 0 }
        match pipeline s0 with
        | .error e => (.httpError 500 e, st)
        | .ok s1 =>
            let html := String.mk (s1.final_response_html.getD [])
            (.success session_id html,
             { st with game_sessions := assocSet session_id s1 st.game_sessions })

end MainPy

namespace AgentV2

/-- Embedding of `apply_feedback_to_code` from agent__.py (lines 598 to 674),
the repaired twin of the agent.py version: the reinforcement call and its
fence stripping sit inside the `if` block, so the second generation call
(`out2`) happens exactly when the first stripped output equals the current
code, and both code fields receive the adopted output.  The result carries
the number of generation calls issued. -/
def apply_feedback_to_code (out1 out2 : List Char) (s : GameAgentState) :
    GameAgentState × Nat :=
  let feedback := s.user_feedback.getD []
  let code :=
    match s.final_code with
    | some c => if c = [] then s.generated_code.getD [] else c
    | none => s.generated_code.getD []
  if feedback = [] then (s, 0)
  else
    let fixed1 := stripTrailFence (stripLeadFence "html".data out1)
    if pstrip fixed1 = pstrip code then
      let fixed2 := stripTrailFence (stripLeadFence "html".data out2)
      ({ s with final_code := some fixed2, generated_code := some fixed2 }, 2)
    else
      ({ s with final_code := some fixed1, generated_code := some fixed1 }, 1)

end AgentV2

/-! ## Object spans of a text (C2) -/

/-- Whether a parse result is an object value. -/
def isObjValue : Option PyJson → Bool
  | some (.obj _) => true
  | _ => false

/-- Every span `(i, len)` of the text that is itself a well-formed JSON
object: it opens with a brace, closes with a brace, and `json.loads` accepts
it.  A text containing exactly one well-formed JSON object has exactly one
such span. -/
def tightObjSpans (t : List Char) : List (Nat × Nat) :=
  (List.range (t.length + 1)).flatMap (fun i =>
    (List.range (t.length + 1)).filterMap (fun len =>
      let sub := (t.drop i).take len
      if sub.head? = some '{' && sub.getLast? = some '}' &&
          isObjValue (json_loads sub) then
        some (i, len)
      else none))

/-! ## Helper lemmas -/

/-- A prefix on which the predicate holds everywhere is consumed whole by
`dropWhile`. -/
theorem dropWhile_append_all {α : Type} (p : α → Bool) (pre rest : List α)
    (h : ∀ c ∈ pre, p c = true) :
    (pre ++ rest).dropWhile p = rest.dropWhile p := by
  induction pre with
  | nil => rfl
  | cons a as ih =>
      have ha : p a = true := h a (List.mem_cons_self a as)
      simp only [List.cons_append, List.dropWhile_cons, ha, if_true]
      exact ih (fun c hc => h c (List.mem_cons_of_mem a hc))

/-- The greedy regex span of a text that decomposes as prose with no opening
brace, then a brace-delimited body, then prose with no closing brace, is
exactly the brace-delimited body. -/
theorem grabSpan_decomp (pre mid post : List Char)
    (hpre : '{' ∉ pre) (hpost : '}' ∉ post) :
    grabSpan '{' '}' (pre ++ ('{' :: (mid ++ ['}'])) ++ post) =
      some ('{' :: (mid ++ ['}'])) := by
  have h1 : (pre ++ ('{' :: (mid ++ ['}'])) ++ post).dropWhile
      (fun x => x ≠ '{') = '{' :: (mid ++ ['}']) ++ post := by
    rw [List.append_assoc]
    rw [dropWhile_append_all _ pre _ (fun c hc => by
      simp only [ne_eq, decide_eq_true_eq]
      exact fun hEq => hpre (hEq ▸ hc))]
    simp [List.dropWhile_cons]
  have h2 : (('{' :: (mid ++ ['}']) ++ post).reverse).dropWhile
      (fun x => x ≠ '}') = '}' :: (mid.reverse ++ ['{']) := by
    have : ('{' :: (mid ++ ['}']) ++ post).reverse =
        post.reverse ++ ('}' :: (mid.reverse ++ ['{'])) := by
      simp
    rw [this]
    rw [dropWhile_append_all _ post.reverse _ (fun c hc => by
      simp only [ne_eq, decide_eq_true_eq]
      exact fun hEq => hpost (hEq ▸ (List.mem_reverse.mp hc)))]
    simp [List.dropWhile_cons]
  unfold grabSpan
  rw [h1]
  simp only []
  rw [h2]
  have h3 : ('}' :: (mid.reverse ++ ['{'])).reverse =
      '{' :: (mid ++ ['}']) := by simp
  rw [h3]
  cases mid <;> rfl

/-- A status selecting the fail branch never selects the pass branch. -/
theorem saysFail_not_saysPass (v : Option PyJson)
    (h : AgentV2.saysFail v = true) : AgentV2.saysPass v = false := by
  cases v with
  | none => rfl
  | some j =>
      cases j with
      | str s =>
          simp only [AgentV2.saysFail, decide_eq_true_eq] at h
          simp only [AgentV2.saysPass, h]
          decide
      | null => rfl
      | bool b => rfl
      | num n => rfl
      | arr es => rfl
      | obj kvs => simp [AgentV2.saysFail] at h

/-! ## C2 — the extractor on prose-wrapped JSON objects -/

/-- C2, counterexample.  The text `x {"a": 1} y}` contains exactly one
well-formed JSON object, the span at offset 2 of length 8 (the enumeration
`tightObjSpans` proves its uniqueness), yet `safe_json_parse` raises: the
regex grabs from the first opening brace to the last closing brace, which is
inside the trailing prose, and that wider span is not valid JSON.  The claim
that every text containing exactly one well-formed object parses to that
object regardless of the surrounding prose is therefore false. -/
theorem safe_json_parse_prose_counterexample :
    AgentPy.safe_json_parse "x \x7b\"a\": 1\x7d y\x7d".data = none ∧
    "x \x7b\"a\": 1\x7d y\x7d".data =
      "x ".data ++ "\x7b\"a\": 1\x7d".data ++ " y\x7d".data ∧
    json_loads "\x7b\"a\": 1\x7d".data = some (.obj [("a".data, .num 1)]) ∧
    tightObjSpans "x \x7b\"a\": 1\x7d y\x7d".data = [(2, 8)] :=
  ⟨rfl, rfl, rfl, rfl⟩

/-- C2, amended.  The extractor does recover the unique embedded object, but
only when the surrounding prose is brace-free on the matching side: for a
text `pre ++ obj ++ post` whose whole-string parse fails, where `pre` has no
opening brace and `post` has no closing brace, `safe_json_parse` returns the
object; the counterexample shows the original unconditional claim fails once
the trailing prose contains a closing brace, because the regex takes the span
from the first opening to the last closing brace rather than the first
balanced span. -/
theorem safe_json_parse_clean_prose (pre mid post : List Char) (v : PyJson)
    (hpre : '{' ∉ pre) (hpost : '}' ∉ post)
    (hobj : json_loads ('{' :: (mid ++ ['}'])) = some v)
    (hwhole : json_loads (pre ++ ('{' :: (mid ++ ['}'])) ++ post) = none) :
    AgentPy.safe_json_parse (pre ++ ('{' :: (mid ++ ['}'])) ++ post) =
      some v := by
  unfold AgentPy.safe_json_parse
  rw [hwhole, grabSpan_decomp pre mid post hpre hpost]
  simp [Option.bind, hobj]

/-- C2, witness for the amended theorem at the text `note: {"a": 1} is it`. -/
theorem safe_json_parse_clean_prose_witness :
    ('{' ∉ "note: ".data) ∧ ('}' ∉ " is it".data) ∧
    json_loads ('{' :: ("\"a\": 1".data ++ ['}'])) =
      some (.obj [("a".data, .num 1)]) ∧
    AgentPy.safe_json_parse
      ("note: ".data ++ ('{' :: ("\"a\": 1".data ++ ['}'])) ++ " is it".data) =
      some (.obj [("a".data, .num 1)]) :=
  ⟨by decide, by decide, rfl,
   safe_json_parse_clean_prose "note: ".data "\"a\": 1".data " is it".data
     (.obj [("a".data, .num 1)]) (by decide) (by decide) rfl rfl⟩

/-! ## C1 — the fix-loop cap in the agent__.py engine -/

namespace AgentV2

/-- Engine step on the review node under a failing verdict: store the verdict
and follow the branch to the fix node. -/
theorem engineRun_review_step (rev fixo : Nat → List Char) (fuel lb ri fi : Nat)
    (s : GameAgentState) (kvs : List (List Char × PyJson))
    (hk : reviewVerdict (rev ri) = PyJson.obj kvs)
    (hf : saysFail (kvs.lookup "status".data) = true) :
    engineRun rev fixo (fuel + 1) .review_code s lb ri fi =
      engineRun rev fixo fuel .fix_game_code
        { s with review_notes := some (PyJson.obj kvs) } lb (ri + 1) fi := by
  simp only [engineRun, review_code, hk, review_branch, reviewStatus, hf, if_true]

/-- Engine step on the fix node under a failing stored verdict: increment the
counter, adopt the stripped fixer output, and loop back to review unless the
counter strictly exceeds the ceiling. -/
theorem engineRun_fix_step (rev fixo : Nat → List Char) (fuel lb ri fi : Nat)
    (s : GameAgentState) (kvs : List (List Char × PyJson))
    (hrn : s.review_notes = some (PyJson.obj kvs))
    (hf : saysFail (kvs.lookup "status".data) = true) :
    engineRun rev fixo (fuel + 1) .fix_game_code s lb ri fi =
      (if s.fix_iteration.getD 0 + 1 > MAX_FIX_ITERATIONS then
         engineRun rev fixo fuel .finalize_output
           (let fixed := stripTrailFence (stripLeadFence "html".data (pstrip (fixo fi)))
            { s with fix_iteration := some (s.fix_iteration.getD 0 + 1),
                     final_code := some fixed, generated_code := some fixed })
           lb ri (fi + 1)
       else
         engineRun rev fixo fuel .review_code
           (let fixed := stripTrailFence (stripLeadFence "html".data (pstrip (fixo fi)))
            { s with fix_iteration := some (s.fix_iteration.getD 0 + 1),
                     final_code := some fixed, generated_code := some fixed })
           (lb + 1) ri (fi + 1)) := by
  have hsp : saysPass (kvs.lookup "status".data) = false := saysFail_not_saysPass _ hf
  simp only [engineRun, fix_game_code, hrn, reviewStatus, hsp,
    Bool.false_eq_true, if_false, fix_branch, Option.getD_some]
  by_cases hgt : s.fix_iteration.getD 0 + 1 > MAX_FIX_ITERATIONS
  · simp only [hgt, if_true]
    have : ("finalize_output" = "review_code") = False := by simp
    simp [this]
  · simp only [hgt, if_false]
    simp

end AgentV2

/-- C1, counterexample.  With a reviewer that answers `{"status": "fail"}` on
every invocation and a fresh state, the engine does finalize, but the final
fix-iteration counter is `MAX_FIX_ITERATIONS + 1`, not `MAX_FIX_ITERATIONS`
as claimed; and at a counter exactly equal to the ceiling (the counter
meeting its ceiling), `fix_branch` still routes back to review rather than to
finalize, so the routing condition is strict excess, not meets-or-exceeds. -/
theorem fix_loop_counter_counterexample :
    (match AgentV2.engineRun (fun _ => "\x7b\"status\": \"fail\"\x7d".data)
        (fun _ => "<fixed html>".data) 8 .review_code
        ⟨none, none, none, none, none, none, none, none, none, none⟩ 0 0 0 with
      | .done sF lb => some (sF.fix_iteration, lb)
      | _ => none) =
      some (some (AgentV2.MAX_FIX_ITERATIONS + 1), AgentV2.MAX_FIX_ITERATIONS) ∧
    AgentV2.MAX_FIX_ITERATIONS + 1 ≠ AgentV2.MAX_FIX_ITERATIONS ∧
    AgentV2.fix_branch ⟨none, none, none, none, none, none, none, none,
        some AgentV2.MAX_FIX_ITERATIONS, none⟩ = "review_code" :=
  ⟨rfl, by decide, rfl⟩

/-- C1, amended.  For every run in which each review verdict carries status
fail, starting from a state with no fix counter, the engine traverses the
loop-back edge from fix to review exactly `MAX_FIX_ITERATIONS` times and then
forces the transition to finalize — but it does so from the branch taken when
the counter strictly exceeds the ceiling, and the final counter is
`MAX_FIX_ITERATIONS + 1`: the fix node runs once more than the claimed
count before the forced exit fires. -/
theorem fix_loop_forced_exit (rev fixo : Nat → List Char)
    (s : AgentV2.GameAgentState) (hfi : s.fix_iteration = none)
    (hfail : ∀ k, ∃ kvs, AgentV2.reviewVerdict (rev k) = PyJson.obj kvs ∧
        AgentV2.saysFail (kvs.lookup "status".data) = true) :
    ∃ sF, AgentV2.engineRun rev fixo 8 .review_code s 0 0 0 =
        .done sF AgentV2.MAX_FIX_ITERATIONS ∧
      sF.fix_iteration = some (AgentV2.MAX_FIX_ITERATIONS + 1) := by
  obtain ⟨k0, h0, f0⟩ := hfail 0
  obtain ⟨k1, h1, f1⟩ := hfail 1
  obtain ⟨k2, h2, f2⟩ := hfail 2
  rw [show (8 : Nat) = 7 + 1 from rfl,
      AgentV2.engineRun_review_step rev fixo 7 0 0 0 s k0 h0 f0]
  rw [show (7 : Nat) = 6 + 1 from rfl,
      AgentV2.engineRun_fix_step rev fixo 6 0 1 0 _ k0 rfl f0]
  have hfi1 : ({ s with review_notes := some (PyJson.obj k0) } :
      AgentV2.GameAgentState).fix_iteration = none := hfi
  rw [hfi1]
  simp only [Option.getD_none, AgentV2.MAX_FIX_ITERATIONS]
  norm_num
  rw [show (6 : Nat) = 5 + 1 from rfl,
      AgentV2.engineRun_review_step rev fixo 5 1 1 1 _ k1 h1 f1]
  rw [show (5 : Nat) = 4 + 1 from rfl,
      AgentV2.engineRun_fix_step rev fixo 4 1 2 1 _ k1 rfl f1]
  simp only [Option.getD_some, AgentV2.MAX_FIX_ITERATIONS]
  norm_num
  rw [show (4 : Nat) = 3 + 1 from rfl,
      AgentV2.engineRun_review_step rev fixo 3 2 2 2 _ k2 h2 f2]
  rw [show (3 : Nat) = 2 + 1 from rfl,
      AgentV2.engineRun_fix_step rev fixo 2 2 3 2 _ k2 rfl f2]
  simp only [Option.getD_some, AgentV2.MAX_FIX_ITERATIONS]
  norm_num
  rw [show (2 : Nat) = 1 + 1 from rfl]
  simp only [AgentV2.engineRun]
  exact ⟨_, rfl, rfl⟩

/-- C1, witness for the amended theorem: the always-fail reviewer on a fresh
state. -/
theorem fix_loop_forced_exit_witness :
    ((⟨none, none, none, none, none, none, none, none, none, none⟩ :
        AgentV2.GameAgentState).fix_iteration = none) ∧
    ∃ sF, AgentV2.engineRun (fun _ => "\x7b\"status\": \"fail\"\x7d".data)
        (fun _ => "<fixed html>".data) 8 .review_code
        ⟨none, none, none, none, none, none, none, none, none, none⟩ 0 0 0 =
        .done sF AgentV2.MAX_FIX_ITERATIONS ∧
      sF.fix_iteration = some (AgentV2.MAX_FIX_ITERATIONS + 1) :=
  ⟨rfl, fix_loop_forced_exit _ _ _ rfl (fun _ => ⟨_, rfl, rfl⟩)⟩

/-! ## C3 — the bounded retry policy around generation calls -/

/-- C3, counterexample.  agent.py routes every generation call through its
own `llm_invoke_text`, which issues a single attempt: on a backend that fails
once and would succeed on the next attempt, the agent.py wrapper surfaces the
failure even though not all of the three claimed attempts were exhausted
(the agent__.py wrapper recovers on the same backend).  The claim that every
generation call is wrapped in an up-to-three-attempt retry is therefore
false for the agent.py variant. -/
theorem llm_retry_counterexample :
    AgentPy.llm_invoke_text
      (fun i => if i = 0 then none else some "ok".data) = none ∧
    (fun i => if i = 0 then none else some "ok".data) 1 = some "ok".data ∧
    1 < AgentV2.RETRIES ∧
    AgentV2.llm_invoke_text
      (fun i => if i = 0 then none else some "ok".data) AgentV2.RETRIES =
      some "ok".data :=
  ⟨rfl, rfl, by decide, rfl⟩

/-- C3, amended.  In agent__.py and html_agent.py, `llm_invoke_text` makes up
to three attempts (with a fixed two-second delay, not modelled in time): the
unavailability error is raised exactly when all three attempts fail, the
first successful attempt has its response returned stripped, and the
html_agent.py wrapper is attempt-for-attempt the same loop; agent.py's
wrapper instead behaves as the same policy capped at a single attempt. -/
theorem llm_retry_policy (b : Nat → Option (List Char)) :
    ((∀ i, i < AgentV2.RETRIES → b i = none) →
      AgentV2.llm_invoke_text b AgentV2.RETRIES = none) ∧
    (∀ k t, k < AgentV2.RETRIES → (∀ j, j < k → b j = none) → b k = some t →
      AgentV2.llm_invoke_text b AgentV2.RETRIES = some (pstrip t)) ∧
    HtmlAgent.llm_invoke_text b AgentV2.RETRIES =
      AgentV2.llm_invoke_text b AgentV2.RETRIES ∧
    AgentPy.llm_invoke_text b = AgentV2.llm_invoke_text b 1 := by
  refine ⟨?_, ?_, rfl, ?_⟩
  · intro h
    simp only [AgentV2.llm_invoke_text, AgentV2.RETRIES, AgentV2.retryLoop,
      h 0 (by decide), h 1 (by decide), h 2 (by decide)]
  · intro k t hk hj hbk
    have hk3 : k < 3 := hk
    interval_cases k
    · simp only [AgentV2.llm_invoke_text, AgentV2.RETRIES, AgentV2.retryLoop, hbk]
    · simp only [AgentV2.llm_invoke_text, AgentV2.RETRIES, AgentV2.retryLoop,
        hj 0 (by decide), hbk]
    · simp only [AgentV2.llm_invoke_text, AgentV2.RETRIES, AgentV2.retryLoop,
        hj 0 (by decide), hj 1 (by decide), hbk]
  · cases hb : b 0 <;>
      simp [AgentPy.llm_invoke_text, AgentV2.llm_invoke_text,
        AgentV2.retryLoop, hb]

/-- C3, witness for the amended theorem: a backend failing twice then
succeeding is recovered by the three-attempt loop. -/
theorem llm_retry_policy_witness :
    (2 < AgentV2.RETRIES ∧
      (fun i => if i < 2 then none else some " ok ".data) 2 = some " ok ".data ∧
      AgentV2.llm_invoke_text
        (fun i => if i < 2 then none else some " ok ".data) AgentV2.RETRIES =
        some (pstrip " ok ".data)) ∧
    AgentPy.llm_invoke_text (fun i => if i < 2 then none else some " ok ".data) =
      AgentV2.llm_invoke_text (fun i => if i < 2 then none else some " ok ".data) 1 :=
  ⟨⟨by decide, rfl,
    (llm_retry_policy (fun i => if i < 2 then none else some " ok ".data)).2.1
      2 " ok ".data (by decide) (fun j hj => by interval_cases j <;> rfl) rfl⟩,
   (llm_retry_policy (fun i => if i < 2 then none else some " ok ".data)).2.2.2⟩

/-! ## C5 — unreachable nodes survive workflow construction -/

/-- C5, counterexample.  The compiled agent__.py workflow contains the node
`collect_user_feedback`, yet that node is not reachable from the entry point:
construction does not reject graphs with unreachable nodes. -/
theorem unreachable_node_counterexample :
    "collect_user_feedback" ∈ AgentV2.workflowNodes ∧
    AgentV2.reachable "collect_user_feedback" = false := by
  constructor
  · decide
  · rfl

/-- C5, amended.  Exactly the three feedback nodes of the agent__.py
workflow — collect_user_feedback, apply_feedback_to_code and
verify_feedback_applied — are unreachable from the entry point (main.py calls
them directly as plain functions, outside the graph); the remaining ten
nodes are all reachable, and construction keeps the unreachable ones. -/
theorem workflow_reachability :
    AgentV2.workflowNodes.filter (fun n => ¬ AgentV2.reachable n) =
      ["collect_user_feedback", "apply_feedback_to_code",
       "verify_feedback_applied"] ∧
    AgentV2.workflowNodes.filter (fun n => AgentV2.reachable n) =
      ["collect_user_idea", "generate_questions", "collect_user_answers",
       "identify_game_template", "load_template_from_library",
       "suggest_visual_feature_changes", "apply_changes_to_template",
       "review_code", "fix_game_code", "finalize_output"] := by
  constructor <;> rfl

/-! ## C6 — protocol errors on resume and feedback -/

/-- C6, counterexample.  For a session identifier with no stored session, the
feedback endpoint does surface the session-not-found protocol error (HTTP
404), but the resume endpoint performs no session check of its own and wraps
whatever the engine raises into a generic HTTP 500 carrying the stringified
error — not the SessionNotFound / NoPendingRequest protocol error the claim
requires it to surface. -/
theorem resume_unknown_session_counterexample :
    (MainPy.resume_game (fun _ _ => .raised "no checkpoint for thread")
        ⟨[], []⟩ "ghost-session" []).1.errorCode = some 500 ∧
    (MainPy.feedback_endpoint (fun s => .ok s)
        ⟨[], []⟩ "ghost-session" []).1.errorCode = some 404 ∧
    (500 : Nat) ≠ 404 :=
  ⟨rfl, rfl, by decide⟩

/-- C6, amended.  A feedback call whose session identifier has no stored
session fails with the 404 session-not-found error and mutates no store; a
resume call performs no session or pending-request check of its own, and when
the engine raises (for a missing session, a consumed pending request, or any
other reason) the caller receives a generic 500 carrying the stringified
error, again with no store mutated — the code never produces a distinct
NoPendingRequest error. -/
theorem session_protocol_errors :
    (∀ (pipeline : AgentV2.GameAgentState → Except String AgentV2.GameAgentState)
       (st : MainPy.Stores) (sid : String) (fb : List Char),
       st.game_sessions.lookup sid = none →
       ∃ d, MainPy.feedback_endpoint pipeline st sid fb =
         (.httpError 404 d, st)) ∧
    (∀ (engine : String → List String → MainPy.EngineResult)
       (st : MainPy.Stores) (sid : String) (ans : List String) (m : String),
       engine sid ans = .raised m →
       MainPy.resume_game engine st sid ans = (.httpError 500 m, st)) := by
  constructor
  · intro pipeline st sid fb h
    exact ⟨"Session ID " ++ sid ++ " not found in GAME_SESSIONS",
      by simp [MainPy.feedback_endpoint, h]⟩
  · intro engine st sid ans m h
    simp [MainPy.resume_game, h]

/-- C6, witness for the amended theorem on an empty store and an engine that
raises. -/
theorem session_protocol_errors_witness :
    ((⟨[], []⟩ : MainPy.Stores).game_sessions.lookup "s1" = none ∧
      ∃ d, MainPy.feedback_endpoint (fun s => .ok s) ⟨[], []⟩ "s1" [] =
        (.httpError 404 d, (⟨[], []⟩ : MainPy.Stores))) ∧
    ((fun (_ : String) (_ : List String) =>
        MainPy.EngineResult.raised "boom") "s1" [] = .raised "boom" ∧
      MainPy.resume_game (fun _ _ => .raised "boom") ⟨[], []⟩ "s1" [] =
        (.httpError 500 "boom", (⟨[], []⟩ : MainPy.Stores))) :=
  ⟨⟨rfl, session_protocol_errors.1 (fun s => .ok s) ⟨[], []⟩ "s1" [] rfl⟩,
   ⟨rfl, session_protocol_errors.2 (fun _ _ => .raised "boom") ⟨[], []⟩ "s1" []
      "boom" rfl⟩⟩

/-! ## C7 — steps mutate the caller-held state in place -/

/-- C7, counterexample.  Running `collect_user_idea` on a state whose
`validated` field is unset leaves the caller-held dict changed after the
call (its `validated` field is now false): the step mutates the state it was
passed, so the claim that no step observably mutates its input state is
false. -/
theorem step_mutation_counterexample :
    ¬ ((AgentPy.collect_user_idea "fresh-id".data
        ⟨some "abc".data, some "a maze game".data, none, none, none, none,
         none⟩).callerState =
      ⟨some "abc".data, some "a maze game".data, none, none, none, none,
       none⟩) := by
  intro h
  have hv := congrArg AgentPy.GameAgentState.validated h
  simp [AgentPy.collect_user_idea] at hv

/-- C7, amended.  `collect_user_idea` follows the in-place discipline of
every step in the sources: the dict the caller holds after the call is
exactly the returned state (the function returns the object it mutated), and
whenever the input did not already carry `validated = false` the caller-held
dict differs from the one passed in — the changes are visible through the
caller's reference, not only through the return value. -/
theorem step_mutation_in_place (freshId : List Char)
    (s : AgentPy.GameAgentState) (h : s.validated ≠ some false) :
    (AgentPy.collect_user_idea freshId s).callerState =
      (AgentPy.collect_user_idea freshId s).ret ∧
    (AgentPy.collect_user_idea freshId s).callerState ≠ s := by
  refine ⟨rfl, ?_⟩
  intro hEq
  apply h
  have hv := congrArg AgentPy.GameAgentState.validated hEq
  have hv2 : (AgentPy.collect_user_idea freshId s).callerState.validated =
      some false := rfl
  rw [hv2] at hv
  exact hv.symm

/-- C7, witness for the amended theorem on a state with an unset `validated`
field. -/
theorem step_mutation_in_place_witness :
    ((⟨some "abc".data, some "a maze game".data, none, none, none, none,
        none⟩ : AgentPy.GameAgentState).validated ≠ some false) ∧
    ((AgentPy.collect_user_idea "fresh-id".data
        ⟨some "abc".data, some "a maze game".data, none, none, none, none,
         none⟩).callerState =
      (AgentPy.collect_user_idea "fresh-id".data
        ⟨some "abc".data, some "a maze game".data, none, none, none, none,
         none⟩).ret ∧
     (AgentPy.collect_user_idea "fresh-id".data
        ⟨some "abc".data, some "a maze game".data, none, none, none, none,
         none⟩).callerState ≠
       ⟨some "abc".data, some "a maze game".data, none, none, none, none,
        none⟩) :=
  ⟨by simp, step_mutation_in_place "fresh-id".data _ (by simp)⟩

/-! ## C9 — an unparseable review verdict passes in html_agent.py -/

/-- C9.  In html_agent.py, whenever the reviewer response cannot be parsed,
`review_code` stores the pass verdict with an empty issues list, and
`review_branch` on the resulting state selects `finalize_output` — never the
fix node — so the fix loop is not entered for that response. -/
theorem unparseable_review_passes (s : HtmlAgent.GameAgentState)
    (out : List Char) (h : HtmlAgent.safe_json_parse out = none) :
    (HtmlAgent.review_code out s).review_notes =
      some HtmlAgent.reviewPassFallback ∧
    HtmlAgent.review_branch (HtmlAgent.review_code out s) =
      .ok "finalize_output" ∧
    ("finalize_output" : String) ≠ "fix_game_code" := by
  have h1 : HtmlAgent.review_code out s =
      { s with review_notes := some HtmlAgent.reviewPassFallback } := by
    simp [HtmlAgent.review_code, h]
  refine ⟨by rw [h1], by rw [h1]; rfl, by decide⟩

/-- C9, witness: a prose reviewer response with no JSON in it. -/
theorem unparseable_review_passes_witness :
    HtmlAgent.safe_json_parse "the reviewer returned prose".data = none ∧
    ((HtmlAgent.review_code "the reviewer returned prose".data
        ⟨none, none, none, none, none, none, none, none, none,
         none⟩).review_notes = some HtmlAgent.reviewPassFallback ∧
     HtmlAgent.review_branch (HtmlAgent.review_code
        "the reviewer returned prose".data
        ⟨none, none, none, none, none, none, none, none, none, none⟩) =
       .ok "finalize_output" ∧
     ("finalize_output" : String) ≠ "fix_game_code") :=
  ⟨rfl, unparseable_review_passes _ _ rfl⟩

/-! ## C10 — the verbatim template shortcuts in html_agent.py -/

/-- C10.  The match-3 and mario shortcuts behave as the claim describes: the
library file is copied verbatim into `final_code`, `early_completion` is set,
`should_skip_customization` routes straight to finalize, and the finalized
html equals the file contents unchanged.  The pac-man shortcut, however,
looks up the key maze in `VANILLA_TEMPLATES`, whose key is spelled Maze, so
the lookup yields `None` and `open(None, ...)` raises `TypeError` for every
file system: the pac-man branch can never load its template. -/
theorem pac_man_template_bug :
    (∀ fs : String → Option String,
      HtmlAgent.load_template_from_library fs
        ⟨none, some "a pac man game".data, none, none, none, none, none,
         none, none, none⟩ = .error .typeError) ∧
    (HtmlAgent.VANILLA_TEMPLATES.lookup "maze" = none ∧
     HtmlAgent.VANILLA_TEMPLATES.lookup "Maze" = some "library/Maze.html") ∧
    (∃ s', HtmlAgent.load_template_from_library
        (fun p => if p = "library/Puzzle.html" then some "<puzzle page>"
          else none)
        ⟨none, some "a match 3 game where i swipe to match".data, none, none,
         none, none, none, none, none, none⟩ = .ok s' ∧
      s'.final_code = some "<puzzle page>" ∧
      s'.early_completion = some true ∧
      HtmlAgent.should_skip_customization s' = "finalize_output" ∧
      (HtmlAgent.finalize_output s').final_response_html =
        some "<puzzle page>") ∧
    (∃ s', HtmlAgent.load_template_from_library
        (fun p => if p = "library/Platformer.html" then some "<platformer page>"
          else none)
        ⟨none, some "a mario style game".data, none, none, none, none, none,
         none, none, none⟩ = .ok s' ∧
      s'.final_code = some "<platformer page>" ∧
      s'.early_completion = some true) :=
  ⟨fun _ => rfl, ⟨rfl, rfl⟩, ⟨_, rfl, rfl, rfl, rfl, rfl⟩, ⟨_, rfl, rfl, rfl⟩⟩

/-! ## C8 — the reinforcement retry in apply_feedback_to_code -/

/-- C8.  On the intended path — the first generation output differs from the
current code — agent.py raises `NameError` (the `stronger_prompt` call sits
dedented outside the `if` block) instead of keeping the first output, while
its repaired twin in agent__.py adopts the first output after exactly one
call; when the first output is textually identical to the code, both
versions issue the reinforcement call and adopt its result.  The claimed
behaviour holds of agent__.py and is broken by the dedent slip in agent.py. -/
theorem apply_feedback_dedent_bug :
    AgentPy.apply_feedback_to_code "<game v2>".data "<unused>".data
      ⟨none, none, none, none, some "make the player red".data, none,
       some "<game v1>".data⟩ = .error .nameError ∧
    AgentV2.apply_feedback_to_code "<game v2>".data "<unused>".data
      ⟨none, none, none, none, none, none, some "<game v1>".data, none,
       none, some "make the player red".data⟩ =
      (⟨none, none, none, none, some "<game v2>".data, none,
        some "<game v2>".data, none, none,
        some "make the player red".data⟩, 1) ∧
    AgentPy.apply_feedback_to_code "<game v1>".data "<game v3>".data
      ⟨none, none, none, none, some "make the player red".data, none,
       some "<game v1>".data⟩ =
      .ok (⟨none, none, none, none, some "make the player red".data, none,
        some "<game v3>".data⟩, 2) ∧
    AgentV2.apply_feedback_to_code "<game v1>".data "<game v3>".data
      ⟨none, none, none, none, none, none, some "<game v1>".data, none,
       none, some "make the player red".data⟩ =
      (⟨none, none, none, none, some "<game v3>".data, none,
        some "<game v3>".data, none, none,
        some "make the player red".data⟩, 2) :=
  ⟨rfl, rfl, rfl, rfl⟩

/-! ## C4 — totality of the template-classification fallback -/

/-- C4, counterexample.  In agent__.py an unparseable classifier response
falls back to the template name sports, a name outside the advertised
template set; in the file system that holds exactly the advertised library
files, `load_template_from_library` then raises `FileNotFoundError` and the
session dies, so the fallback is not total. -/
theorem template_fallback_counterexample :
    AgentV2.safe_json_parse "not a json verdict".data = none ∧
    (AgentV2.identify_game_template "not a json verdict".data
      ⟨none, none, none, none, none, none, none, none, none,
       none⟩).chosen_template = some (.str "sports".data) ∧
    AgentV2.load_template_from_library AgentV2.advertisedFs
      (AgentV2.identify_game_template "not a json verdict".data
        ⟨none, none, none, none, none, none, none, none, none, none⟩) =
      .error .fileNotFound ∧
    ¬ ("sports" ∈ AgentV2.advertisedTemplates) :=
  ⟨rfl, rfl, rfl, by decide⟩

/-- C4, amended.  Both variants do fall back to a statically defined default
on an unparseable classification — sports in agent__.py, platformer in
html_agent.py — but only the html_agent.py fallback is total: platformer is a
key of `VANILLA_TEMPLATES`, and its loader continues on every file system
(an absent file is replaced by the inline default page) whenever the user
input avoids the three verbatim shortcuts; the agent__.py fallback names a
file outside the advertised library and its loader raises when that file is
absent. -/
theorem template_fallback_totality :
    (∀ out s, AgentV2.safe_json_parse out = none →
      (AgentV2.identify_game_template out s).chosen_template =
        some (.str "sports".data)) ∧
    (∀ out s, HtmlAgent.safe_json_parse out = none →
      (HtmlAgent.identify_game_template out s).chosen_template =
        some "platformer") ∧
    HtmlAgent.VANILLA_TEMPLATES.lookup "platformer" =
      some "library/Platformer.html" ∧
    (∀ (fs : String → Option String) (s : HtmlAgent.GameAgentState)
       (u : List Char), s.user_raw_input = some u →
      HtmlAgent.containsSub "match 3".data u = false →
      HtmlAgent.containsSub "mario".data u = false →
      HtmlAgent.containsSub "pac man".data u = false →
      ∃ s', HtmlAgent.load_template_from_library fs s = .ok s' ∧
        s'.base_template_code.isSome = true) := by
  refine ⟨?_, ?_, rfl, ?_⟩
  · intro out s h
    simp [AgentV2.identify_game_template, h]
  · intro out s h
    simp [HtmlAgent.identify_game_template, h]
  · intro fs s u hu h1 h2 h3
    simp only [show ("match 3".data) = ['m', 'a', 't', 'c', 'h', ' ', '3']
      from rfl] at h1
    simp only [show ("mario".data) = ['m', 'a', 'r', 'i', 'o'] from rfl] at h2
    simp only [show ("pac man".data) = ['p', 'a', 'c', ' ', 'm', 'a', 'n']
      from rfl] at h3
    simp only [HtmlAgent.load_template_from_library, hu, h1, h2, h3,
      Bool.false_eq_true, if_false]
    exact ⟨_, rfl, rfl⟩

/-- C4, witness for the amended theorem: an unparseable classification and a
loader call on an empty file system with a shortcut-free idea. -/
theorem template_fallback_totality_witness :
    (AgentV2.safe_json_parse "bad verdict".data = none ∧
      (AgentV2.identify_game_template "bad verdict".data
        ⟨none, none, none, none, none, none, none, none, none,
         none⟩).chosen_template = some (.str "sports".data)) ∧
    (HtmlAgent.safe_json_parse "bad verdict".data = none ∧
      (HtmlAgent.identify_game_template "bad verdict".data
        ⟨none, none, none, none, none, none, none, none, none,
         none⟩).chosen_template = some "platformer") ∧
    ((⟨none, some "a chess game".data, none, none, none, none, none, none,
        none, none⟩ : HtmlAgent.GameAgentState).user_raw_input =
        some "a chess game".data ∧
      HtmlAgent.containsSub "match 3".data "a chess game".data = false ∧
      HtmlAgent.containsSub "mario".data "a chess game".data = false ∧
      HtmlAgent.containsSub "pac man".data "a chess game".data = false ∧
      ∃ s', HtmlAgent.load_template_from_library (fun _ => none)
          ⟨none, some "a chess game".data, none, none, none, none, none,
           none, none, none⟩ = .ok s' ∧
        s'.base_template_code.isSome = true) :=
  ⟨⟨rfl, template_fallback_totality.1 "bad verdict".data _ rfl⟩,
   ⟨rfl, template_fallback_totality.2.1 "bad verdict".data _ rfl⟩,
   ⟨rfl, rfl, rfl, rfl,
    template_fallback_totality.2.2.2 (fun _ => none) _ "a chess game".data
      rfl rfl rfl rfl⟩⟩
